import Mathlib

/-!
# Verification of the kana-dojo Progress/Stats aggregation core

Shallow embedding of the pure classification/aggregation functions of the
`Progress` feature (`classifyCharacter.ts`, `calculateAccuracy.ts`,
`detectContentType.ts`, `useStatsAggregator.ts`,
`MasteryDistributionChart.tsx`) together with proofs of the specified
properties.  JavaScript non-negative integer counters are embedded as `Nat`;
percentage/ratio arithmetic is embedded in exact rational arithmetic (`ℚ`);
JavaScript strings are embedded as their lists of UTF-16 code units.
-/

namespace KanaDojo

/-- Mastery level classification (`MasteryLevel` in `types/stats.ts`):
`'mastered' | 'learning' | 'needs-practice'`. -/
inductive MasteryLevel
  | mastered
  | learning
  | needsPractice
  deriving DecidableEq, Repr

/-- Content type categories (`ContentType` in `types/stats.ts`):
`'kana' | 'kanji' | 'vocabulary'`. -/
inductive ContentType
  | kana
  | kanji
  | vocabulary
  deriving DecidableEq, Repr

/-- Content filter including the `'all'` option (`ContentFilter` in
`types/stats.ts`): `'all' | ContentType`. -/
inductive ContentFilter
  | all
  | kana
  | kanji
  | vocabulary
  deriving DecidableEq, Repr

/-- The string comparison `item.contentType === filter` used by
`filterCharacterMasteryByType`: a content-type literal equals the
corresponding filter literal and nothing else (`'all'` never equals a
content type). -/
def contentTypeMatchesFilter (t : ContentType) (f : ContentFilter) : Bool :=
  match t, f with
  | .kana, .kana => true
  | .kanji, .kanji => true
  | .vocabulary, .vocabulary => true
  | _, _ => false

/-- A JavaScript string, embedded as its list of UTF-16 code units
(`.length` is the code-unit count and `.charCodeAt(0)` the first unit). -/
abbrev JsString := List Nat

/-! ## `lib/calculateAccuracy.ts` -/

/-- Embedding of `calculateAccuracy(correct, incorrect)`: accuracy as a percentage, `0`
when there are no attempts, otherwise `(correct / total) * 100`. -/
def calculateAccuracy (correct incorrect : Nat) : ℚ :=
  let total := correct + incorrect
  if total = 0 then 0
  else ((correct : ℚ) / (total : ℚ)) * 100

/-! ## `lib/classifyCharacter.ts` -/

/-- Minimum attempts required for mastered classification. -/
def MASTERED_MIN_ATTEMPTS : Nat := 10

/-- Minimum accuracy (as a decimal, `0.9`) required for mastered
classification. -/
def MASTERED_MIN_ACCURACY : ℚ := 9 / 10

/-- Minimum attempts required for needs-practice classification. -/
def NEEDS_PRACTICE_MIN_ATTEMPTS : Nat := 5

/-- Maximum accuracy (as a decimal, `0.7`) for needs-practice
classification. -/
def NEEDS_PRACTICE_MAX_ACCURACY : ℚ := 7 / 10

/-- Embedding of `classifyCharacter(correct, incorrect)`: mastery level from the two
threshold rules; `total === 0` short-circuits to `learning`, then the
mastered threshold is checked before the needs-practice threshold, and
everything else defaults to `learning`. -/
def classifyCharacter (correct incorrect : Nat) : MasteryLevel :=
  let total := correct + incorrect
  if total = 0 then
    .learning
  else
    let accuracy : ℚ := (correct : ℚ) / (total : ℚ)
    if MASTERED_MIN_ATTEMPTS ≤ total ∧ MASTERED_MIN_ACCURACY ≤ accuracy then
      .mastered
    else if NEEDS_PRACTICE_MIN_ATTEMPTS ≤ total ∧
        accuracy < NEEDS_PRACTICE_MAX_ACCURACY then
      .needsPractice
    else
      .learning

/-- The mastered threshold condition of the specification, spelled out on
the raw counts: `total ≥ 10` and `correct/total ≥ 0.9`. -/
def masteredCond (correct incorrect : Nat) : Prop :=
  10 ≤ correct + incorrect ∧
    (9 : ℚ) / 10 ≤ (correct : ℚ) / ((correct : ℚ) + (incorrect : ℚ))

/-- The needs-practice threshold condition of the specification, spelled
out on the raw counts: `total ≥ 5` and `correct/total < 0.7`. -/
def needsPracticeCond (correct incorrect : Nat) : Prop :=
  5 ≤ correct + incorrect ∧
    (correct : ℚ) / ((correct : ℚ) + (incorrect : ℚ)) < 7 / 10

instance (c i : Nat) : Decidable (masteredCond c i) := by
  unfold masteredCond; exact inferInstance

instance (c i : Nat) : Decidable (needsPracticeCond c i) := by
  unfold needsPracticeCond; exact inferInstance

lemma classifyCharacter_eq_ite (c i : Nat) :
    classifyCharacter c i =
      if masteredCond c i then .mastered
      else if needsPracticeCond c i then .needsPractice
      else .learning := by
  unfold classifyCharacter masteredCond needsPracticeCond
  unfold MASTERED_MIN_ATTEMPTS MASTERED_MIN_ACCURACY
  unfold NEEDS_PRACTICE_MIN_ATTEMPTS NEEDS_PRACTICE_MAX_ACCURACY
  rcases Nat.eq_zero_or_pos (c + i) with h0 | hpos
  · simp only [h0, if_pos rfl]
    have hc : c = 0 := Nat.le_zero.mp (h0 ▸ Nat.le_add_right c i)
    have hi : i = 0 := Nat.le_zero.mp (h0 ▸ Nat.le_add_left i c)
    subst hc; subst hi
    norm_num
  · have hne : c + i ≠ 0 := Nat.pos_iff_ne_zero.mp hpos
    simp only [if_neg hne]
    have hcast : ((c + i : Nat) : ℚ) = (c : ℚ) + (i : ℚ) := by push_cast; ring
    rw [hcast]

lemma masteredCond_and_needsPracticeCond_false (c i : Nat)
    (hm : masteredCond c i) (hn : needsPracticeCond c i) : False := by
  have h1 := hm.2
  have h2 := hn.2
  have : (9 : ℚ) / 10 < 7 / 10 := lt_of_le_of_lt h1 h2
  norm_num at this

/-! ## `lib/detectContentType.ts` -/

/-- Hiragana Unicode range start. -/
def HIRAGANA_START : Nat := 0x3040
/-- Hiragana Unicode range end. -/
def HIRAGANA_END : Nat := 0x309f

/-- Katakana Unicode range start. -/
def KATAKANA_START : Nat := 0x30a0
/-- Katakana Unicode range end. -/
def KATAKANA_END : Nat := 0x30ff

/-- Kanji (CJK Unified Ideographs) Unicode range start. -/
def KANJI_START : Nat := 0x4e00
/-- Kanji (CJK Unified Ideographs) Unicode range end. -/
def KANJI_END : Nat := 0x9faf

/-- Embedding of `isHiragana(code)`: code is in the Hiragana range. -/
def isHiragana (code : Nat) : Bool :=
  HIRAGANA_START ≤ code && code ≤ HIRAGANA_END

/-- Embedding of `isKatakana(code)`: code is in the Katakana range. -/
def isKatakana (code : Nat) : Bool :=
  KATAKANA_START ≤ code && code ≤ KATAKANA_END

/-- Embedding of `isKanji(code)`: code is in the CJK Unified Ideographs range. -/
def isKanji (code : Nat) : Bool :=
  KANJI_START ≤ code && code ≤ KANJI_END

/-- Embedding of `isKana(code)`: Hiragana or Katakana. -/
def isKana (code : Nat) : Bool :=
  isHiragana code || isKatakana code

/-- Embedding of `detectContentType(character)`: empty string → vocabulary; more than
one code unit → vocabulary; single kana code unit → kana; single kanji
code unit → kanji; any other single code unit defaults to kanji. -/
def detectContentType (character : JsString) : ContentType :=
  if character.length = 0 then
    .vocabulary
  else if 1 < character.length then
    .vocabulary
  else
    let code := character.headI
    if isKana code then
      .kana
    else if isKanji code then
      .kanji
    else
      .kanji

/-- Embedding of `filterByContentType(characters, contentType)` from
`lib/detectContentType.ts`: keep the characters whose detected content
type is the requested one. -/
def filterByContentType (characters : List JsString)
    (contentType : ContentType) : List JsString :=
  characters.filter (fun char => detectContentType char = contentType)

/-! ## Data model of `types/stats.ts` -/

/-- Embedding of `CharacterMasteryItem`: one tracked character with its derived
metrics. -/
structure CharacterMasteryItem where
  character : JsString
  correct : Nat
  incorrect : Nat
  total : Nat
  accuracy : ℚ
  masteryLevel : MasteryLevel
  contentType : ContentType
  deriving DecidableEq, Repr

/-- Embedding of `MasteryDistribution`: per-level counts plus total. -/
@[ext]
structure MasteryDistribution where
  mastered : Nat
  learning : Nat
  needsPractice : Nat
  total : Nat
  deriving DecidableEq, Repr

/-! ## `hooks/useStatsAggregator.ts`: `calculateMasteryDistribution` -/

/-- The body of the `for`/`switch` loop of `calculateMasteryDistribution`:
increment the counter of the item's mastery level (the `switch` covers all
three levels, so every item increments exactly one counter). -/
def masteryBump (d : MasteryDistribution)
    (item : CharacterMasteryItem) : MasteryDistribution :=
  match item.masteryLevel with
  | .mastered => { d with mastered := d.mastered + 1 }
  | .learning => { d with learning := d.learning + 1 }
  | .needsPractice => { d with needsPractice := d.needsPractice + 1 }

/-- Embedding of `calculateMasteryDistribution(items)`: start from all-zero counters
with `total = items.length`, then a single pass over the input bumping the
counter of each item's level. -/
def calculateMasteryDistribution
    (items : List CharacterMasteryItem) : MasteryDistribution :=
  items.foldl masteryBump
    { mastered := 0, learning := 0, needsPractice := 0, total := items.length }

lemma foldl_masteryBump_mastered (l : List CharacterMasteryItem)
    (d : MasteryDistribution) :
    (l.foldl masteryBump d).mastered =
      d.mastered + l.countP (fun x => x.masteryLevel == .mastered) := by
  induction l generalizing d with
  | nil => simp
  | cons x xs ih =>
    rw [List.foldl_cons, List.countP_cons, ih]
    unfold masteryBump
    cases h : x.masteryLevel <;> simp [h] <;> omega

lemma foldl_masteryBump_learning (l : List CharacterMasteryItem)
    (d : MasteryDistribution) :
    (l.foldl masteryBump d).learning =
      d.learning + l.countP (fun x => x.masteryLevel == .learning) := by
  induction l generalizing d with
  | nil => simp
  | cons x xs ih =>
    rw [List.foldl_cons, List.countP_cons, ih]
    unfold masteryBump
    cases h : x.masteryLevel <;> simp [h] <;> omega

lemma foldl_masteryBump_needsPractice (l : List CharacterMasteryItem)
    (d : MasteryDistribution) :
    (l.foldl masteryBump d).needsPractice =
      d.needsPractice + l.countP (fun x => x.masteryLevel == .needsPractice) := by
  induction l generalizing d with
  | nil => simp
  | cons x xs ih =>
    rw [List.foldl_cons, List.countP_cons, ih]
    unfold masteryBump
    cases h : x.masteryLevel <;> simp [h] <;> omega

lemma foldl_masteryBump_total (l : List CharacterMasteryItem)
    (d : MasteryDistribution) :
    (l.foldl masteryBump d).total = d.total := by
  induction l generalizing d with
  | nil => simp
  | cons x xs ih =>
    rw [List.foldl_cons, ih]
    unfold masteryBump
    cases h : x.masteryLevel <;> simp [h]

/-- Field-wise characterization of `calculateMasteryDistribution`: each
per-level count is the number of items classified at that level. -/
lemma calculateMasteryDistribution_eq (items : List CharacterMasteryItem) :
    calculateMasteryDistribution items =
      { mastered := items.countP (fun x => x.masteryLevel == .mastered),
        learning := items.countP (fun x => x.masteryLevel == .learning),
        needsPractice := items.countP (fun x => x.masteryLevel == .needsPractice),
        total := items.length } := by
  unfold calculateMasteryDistribution
  ext
  · rw [foldl_masteryBump_mastered]; simp
  · rw [foldl_masteryBump_learning]; simp
  · rw [foldl_masteryBump_needsPractice]; simp
  · rw [foldl_masteryBump_total]

lemma countP_masteryLevel_sum (items : List CharacterMasteryItem) :
    items.countP (fun x => x.masteryLevel == .mastered) +
      items.countP (fun x => x.masteryLevel == .learning) +
      items.countP (fun x => x.masteryLevel == .needsPractice) =
        items.length := by
  induction items with
  | nil => simp
  | cons x xs ih =>
    rw [List.countP_cons, List.countP_cons, List.countP_cons, List.length_cons]
    cases h : x.masteryLevel <;> simp [h] <;> omega

/-! ## Theorems for claim C3 -/

/-- C3: For every list of classified items, the three per-level counts
of `calculateMasteryDistribution` sum to `total`, which equals the input
length; the empty list yields the all-zero distribution; and the result is
invariant under permutation of the input. -/
theorem calculateMasteryDistribution_correct
    (items : List CharacterMasteryItem) :
    ((calculateMasteryDistribution items).mastered +
        (calculateMasteryDistribution items).learning +
        (calculateMasteryDistribution items).needsPractice =
      (calculateMasteryDistribution items).total) ∧
    (calculateMasteryDistribution items).total = items.length ∧
    calculateMasteryDistribution [] =
      { mastered := 0, learning := 0, needsPractice := 0, total := 0 } ∧
    (∀ items' : List CharacterMasteryItem, items.Perm items' →
      calculateMasteryDistribution items =
        calculateMasteryDistribution items') := by
  refine ⟨?_, ?_, ?_, ?_⟩
  · rw [calculateMasteryDistribution_eq]
    exact countP_masteryLevel_sum items
  · rw [calculateMasteryDistribution_eq]
  · rfl
  · intro items' hperm
    rw [calculateMasteryDistribution_eq, calculateMasteryDistribution_eq]
    ext
    · exact hperm.countP_eq _
    · exact hperm.countP_eq _
    · exact hperm.countP_eq _
    · exact hperm.length_eq

/-- Witness for C3: the permutation clause applied to a concrete two-item
list and its reversal. -/
theorem calculateMasteryDistribution_correct_witness :
    calculateMasteryDistribution
        [{ character := [0x3042], correct := 9, incorrect := 1, total := 10,
           accuracy := 90, masteryLevel := .mastered, contentType := .kana },
         { character := [0x65e5], correct := 1, incorrect := 9, total := 10,
           accuracy := 10, masteryLevel := .needsPractice,
           contentType := .kanji }] =
      calculateMasteryDistribution
        [{ character := [0x65e5], correct := 1, incorrect := 9, total := 10,
           accuracy := 10, masteryLevel := .needsPractice,
           contentType := .kanji },
         { character := [0x3042], correct := 9, incorrect := 1, total := 10,
           accuracy := 90, masteryLevel := .mastered, contentType := .kana }] :=
  ((calculateMasteryDistribution_correct _).2.2.2 _ (by decide))

/-! ## Theorems for claim C1 -/

/-- C1: `classifyCharacter` returns `mastered` iff `total ≥ 10` and
`correct/total ≥ 0.9`; returns `needs-practice` iff `total ≥ 5` and
`correct/total < 0.7`; returns `learning` in every other case (including
`total = 0`); it is total, always returning one of the three levels; and
`classifyCharacter 7 3 = learning` (exactly 70% accuracy is not
needs-practice). -/
theorem classifyCharacter_correct (c i : Nat) :
    (classifyCharacter c i = .mastered ↔ masteredCond c i) ∧
    (classifyCharacter c i = .needsPractice ↔ needsPracticeCond c i) ∧
    (classifyCharacter c i = .learning ↔
      ¬ masteredCond c i ∧ ¬ needsPracticeCond c i) ∧
    (classifyCharacter c i = .mastered ∨ classifyCharacter c i = .learning ∨
      classifyCharacter c i = .needsPractice) ∧
    classifyCharacter 7 3 = .learning := by
  have h73 : classifyCharacter 7 3 = .learning := by
    rw [classifyCharacter_eq_ite]
    rw [if_neg ?_, if_neg ?_]
    · unfold needsPracticeCond
      norm_num
    · unfold masteredCond
      norm_num
  rw [classifyCharacter_eq_ite]
  by_cases hm : masteredCond c i
  · have hn : ¬ needsPracticeCond c i := fun hn =>
      masteredCond_and_needsPracticeCond_false c i hm hn
    simp [hm, hn, h73]
  · by_cases hn : needsPracticeCond c i
    · simp [hm, hn, h73]
    · simp [hm, hn, h73]

/-! ## Theorems for claim C2 -/

/-- C2: `calculateAccuracy` always lies in `[0, 100]`; it is `0` when
`correct + incorrect = 0`, equals `100 * correct / (correct + incorrect)`
otherwise, equals `100` when `incorrect = 0 < correct`, and equals `0` when
`correct = 0 < incorrect`. -/
theorem calculateAccuracy_correct (c i : Nat) :
    0 ≤ calculateAccuracy c i ∧ calculateAccuracy c i ≤ 100 ∧
    (c + i = 0 → calculateAccuracy c i = 0) ∧
    (c + i ≠ 0 →
      calculateAccuracy c i = 100 * (c : ℚ) / ((c : ℚ) + (i : ℚ))) ∧
    (i = 0 → 0 < c → calculateAccuracy c i = 100) ∧
    (c = 0 → 0 < i → calculateAccuracy c i = 0) := by
  unfold calculateAccuracy
  by_cases h0 : c + i = 0
  · have hc : c = 0 := Nat.le_zero.mp (h0 ▸ Nat.le_add_right c i)
    have hi : i = 0 := Nat.le_zero.mp (h0 ▸ Nat.le_add_left i c)
    subst hc; subst hi
    norm_num
  · have hpos : 0 < c + i := Nat.pos_iff_ne_zero.mpr h0
    have hcast : ((c + i : Nat) : ℚ) = (c : ℚ) + (i : ℚ) := by push_cast; ring
    have hqpos : (0 : ℚ) < (c : ℚ) + (i : ℚ) := by
      rw [← hcast]; exact_mod_cast hpos
    simp only [if_neg h0, hcast]
    refine ⟨?_, ?_, fun h => absurd h h0, fun _ => by ring, ?_, ?_⟩
    · positivity
    · have hle : (c : ℚ) ≤ (c : ℚ) + (i : ℚ) := by
        have : (0 : ℚ) ≤ (i : ℚ) := by positivity
        linarith
      have := div_le_one_of_le₀ hle (le_of_lt hqpos)
      nlinarith
    · intro hi hc
      subst hi
      have hcne : ((c : ℚ)) ≠ 0 := by
        have : (0 : ℚ) < (c : ℚ) := by exact_mod_cast hc
        exact ne_of_gt this
      field_simp
    · intro hc _
      subst hc
      simp

/-! ## Theorems for claim C6 -/

lemma isKana_iff (c : Nat) :
    isKana c = true ↔
      (0x3040 ≤ c ∧ c ≤ 0x309f) ∨ (0x30a0 ≤ c ∧ c ≤ 0x30ff) := by
  simp [isKana, isHiragana, isKatakana, HIRAGANA_START, HIRAGANA_END,
    KATAKANA_START, KATAKANA_END]

lemma detectContentType_single (c : Nat) :
    detectContentType [c] =
      if isKana c then .kana else if isKanji c then .kanji else .kanji := by
  simp [detectContentType]

/-- C6: `detectContentType` applies its rules in order: empty string →
vocabulary, more than one code unit → vocabulary, single code unit in the
Hiragana or Katakana range → kana, single code unit in the CJK range →
kanji, any other single code unit → kanji; with the concrete examples
`'あ'`/`'ア'` → kana, `'日'` → kanji, `'日本'` → vocabulary, `''` →
vocabulary. -/
theorem detectContentType_correct (s : JsString) :
    (s.length = 0 → detectContentType s = .vocabulary) ∧
    (1 < s.length → detectContentType s = .vocabulary) ∧
    (∀ c : Nat, s = [c] →
      ((0x3040 ≤ c ∧ c ≤ 0x309f) ∨ (0x30a0 ≤ c ∧ c ≤ 0x30ff) →
        detectContentType s = .kana) ∧
      (¬ ((0x3040 ≤ c ∧ c ≤ 0x309f) ∨ (0x30a0 ≤ c ∧ c ≤ 0x30ff)) →
        0x4e00 ≤ c ∧ c ≤ 0x9faf → detectContentType s = .kanji) ∧
      (¬ ((0x3040 ≤ c ∧ c ≤ 0x309f) ∨ (0x30a0 ≤ c ∧ c ≤ 0x30ff)) →
        ¬ (0x4e00 ≤ c ∧ c ≤ 0x9faf) → detectContentType s = .kanji)) ∧
    detectContentType [0x3042] = .kana ∧
    detectContentType [0x30a2] = .kana ∧
    detectContentType [0x65e5] = .kanji ∧
    detectContentType [0x65e5, 0x672c] = .vocabulary ∧
    detectContentType [] = .vocabulary := by
  refine ⟨?_, ?_, ?_, by decide, by decide, by decide, by decide, by decide⟩
  · intro h
    rw [List.length_eq_zero] at h
    subst h
    rfl
  · intro h
    unfold detectContentType
    rcases s with _ | ⟨a, _ | ⟨b, t⟩⟩
    · simp at h
    · simp at h
    · simp
  · intro c hs
    subst hs
    rw [detectContentType_single]
    refine ⟨?_, ?_, ?_⟩
    · intro hk
      rw [if_pos ((isKana_iff c).mpr hk)]
    · intro hk hj
      rw [if_neg ?_, if_pos ?_]
      · simp [isKanji, KANJI_START, KANJI_END]
        omega
      · simp only [isKana_iff]
        exact hk
    · intro hk hj
      rw [if_neg ?_, if_neg ?_]
      · simp [isKanji, KANJI_START, KANJI_END]
        omega
      · simp only [isKana_iff]
        exact hk

/-- Witness for C6: the single-code-unit clauses applied at concrete code
units (Hiragana `あ` and a Latin letter falling back to kanji). -/
theorem detectContentType_correct_witness :
    detectContentType [0x3042] = .kana ∧ detectContentType [0x41] = .kanji := by
  refine ⟨?_, ?_⟩
  · exact (((detectContentType_correct [0x3042]).2.2.1 0x3042 rfl).1 (by omega))
  · exact (((detectContentType_correct [0x41]).2.2.1 0x41 rfl).2.2
      (by omega) (by omega))

/-! ## `MasteryDistributionChart.tsx` (claim C10)

The chart component computes its percentages in JavaScript IEEE-754
binary64 arithmetic, where every arithmetic operation rounds its exact
result to 53 significand bits.  That rounding is observable in
`percentageSum` (the repository's own property test asserts only
`toBeCloseTo(100, 10)` for it), so `calculatePercentage` and
`getMasteryDistributionDisplayValues` are embedded with an explicit
binary64 rounding step after each operation. -/

/-- Round-to-nearest, ties-to-even at 53 significand bits: the IEEE-754
binary64 rounding of an exact rational result, for the normal,
non-overflowing magnitudes produced by the percentage computations here
(no subnormal or overflow handling; `0` maps to `0`, and only
non-negative values occur). -/
def round64 (x : ℚ) : ℚ :=
  if x = 0 then 0
  else
    let e := Int.log 2 x
    let scale : ℚ := 2 ^ (e - 52)
    let m := x / scale
    let lo := ⌊m⌋
    let r := m - lo
    let hi :=
      if r < 1 / 2 then lo
      else if 1 / 2 < r then lo + 1
      else if 2 ∣ lo then lo else lo + 1
    (hi : ℚ) * scale

lemma int_log_eq_of_bounds (x : ℚ) (e : Int) (hx : 0 < x)
    (h1 : (2 : ℚ) ^ e ≤ x) (h2 : x < (2 : ℚ) ^ (e + 1)) :
    Int.log 2 x = e := by
  have ha : e ≤ Int.log 2 x :=
    (Int.zpow_le_iff_le_log (by norm_num) hx).mp h1
  have hb : Int.log 2 x < e + 1 :=
    (Int.lt_zpow_iff_log_lt (by norm_num) hx).mp h2
  omega

/-- Evaluation of `round64` in the round-down (or exact) case: for an
input in the binade `[2^e, 2^(e+1))` lying less than half an ulp above
`lo * 2^(e-52)`, the rounding returns `lo * 2^(e-52)`. -/
lemma round64_eval (x : ℚ) (e lo : Int) (hx : 0 < x)
    (h1 : (2 : ℚ) ^ e ≤ x) (h2 : x < (2 : ℚ) ^ (e + 1))
    (hlo : (lo : ℚ) ≤ x / 2 ^ (e - 52))
    (hhi : x / 2 ^ (e - 52) - (lo : ℚ) < 1 / 2) :
    round64 x = (lo : ℚ) * 2 ^ (e - 52) := by
  have hne : x ≠ 0 := ne_of_gt hx
  have hlog : Int.log 2 x = e := int_log_eq_of_bounds x e hx h1 h2
  have hfl : ⌊x / (2 : ℚ) ^ (e - 52)⌋ = lo :=
    Int.floor_eq_iff.mpr ⟨hlo, by linarith⟩
  unfold round64
  rw [if_neg hne]
  simp only [hlog, hfl]
  rw [if_pos hhi]

lemma round64_one_third :
    round64 (1 / 3) = 6004799503160661 / 2 ^ 54 := by
  have h := round64_eval (1 / 3) (-2) 6004799503160661 (by norm_num)
    (by norm_num) (by norm_num) (by norm_num) (by norm_num)
  rw [h]
  norm_num

lemma round64_step2 :
    round64 (600479950316066100 / 2 ^ 54) = 4691249611844266 / 2 ^ 47 := by
  have h := round64_eval (600479950316066100 / 2 ^ 54) 5 4691249611844266
    (by norm_num) (by norm_num) (by norm_num) (by norm_num) (by norm_num)
  rw [h]
  norm_num

lemma round64_step3 :
    round64 (4691249611844266 / 2 ^ 46) = 4691249611844266 / 2 ^ 46 := by
  have h := round64_eval (4691249611844266 / 2 ^ 46) 6 4691249611844266
    (by norm_num) (by norm_num) (by norm_num) (by norm_num) (by norm_num)
  rw [h]
  norm_num

lemma round64_step4 :
    round64 (7036874417766399 / 2 ^ 46) = 7036874417766399 / 2 ^ 46 := by
  have h := round64_eval (7036874417766399 / 2 ^ 46) 6 7036874417766399
    (by norm_num) (by norm_num) (by norm_num) (by norm_num) (by norm_num)
  rw [h]
  norm_num

/-- Embedding of `calculatePercentage(value, total)` in binary64
arithmetic: `0` when `total === 0`, otherwise `(value / total) * 100`
with the division and the multiplication each rounded (the integer counts
and the literal `100` are exact doubles below `2^53`, so they need no
rounding of their own). -/
def calculatePercentage (value total : Nat) : ℚ :=
  if total = 0 then 0
  else round64 (round64 ((value : ℚ) / (total : ℚ)) * 100)

/-- Specification-side exact-arithmetic reading of `calculatePercentage`:
the idealized real value `value / total * 100` (with the same
`total === 0` guard), for comparison with the binary64 computation. -/
def calculatePercentageExact (value total : Nat) : ℚ :=
  if total = 0 then 0
  else ((value : ℚ) / (total : ℚ)) * 100

/-- Return record of `getMasteryDistributionDisplayValues`.  The three
`…Percent` fields hold the numeric percentages (the source additionally
formats them with `toFixed(1)` and a `%` suffix for display; that string
formatting is presentation and is not modelled). -/
structure MasteryDistributionDisplayValues where
  mastered : Nat
  learning : Nat
  needsPractice : Nat
  total : Nat
  masteredPercent : ℚ
  learningPercent : ℚ
  needsPracticePercent : ℚ
  percentageSum : ℚ
  deriving DecidableEq, Repr

/-- Embedding of `getMasteryDistributionDisplayValues(distribution)`: the three
percentages via `calculatePercentage` and their sum, plus the raw counts;
the `+` chain of `percentageSum` is left-associated with each binary64
addition rounded, as in the source. -/
def getMasteryDistributionDisplayValues
    (distribution : MasteryDistribution) : MasteryDistributionDisplayValues :=
  let masteredPercent :=
    calculatePercentage distribution.mastered distribution.total
  let learningPercent :=
    calculatePercentage distribution.learning distribution.total
  let needsPracticePercent :=
    calculatePercentage distribution.needsPractice distribution.total
  { mastered := distribution.mastered
    learning := distribution.learning
    needsPractice := distribution.needsPractice
    total := distribution.total
    masteredPercent := masteredPercent
    learningPercent := learningPercent
    needsPracticePercent := needsPracticePercent
    percentageSum :=
      round64 (round64 (masteredPercent + learningPercent) +
        needsPracticePercent) }

/-! ## Theorems for claim C10 -/

/-- C10 (amended): For a distribution satisfying the invariant
`mastered + learning + needsPractice = total`: when `total > 0` the exact
(infinite-precision) values of the three percentages sum to exactly
`100`, while the binary64-computed `percentageSum` need not equal `100`
(see the accompanying counterexample, one ulp below `100` at
`{1, 1, 1, 3}`); when `total = 0`, all three computed percentages and
their computed sum are `0`, the `total === 0` guard avoiding any division
by zero. -/
theorem getMasteryDistributionDisplayValues_correct
    (d : MasteryDistribution)
    (hinv : d.mastered + d.learning + d.needsPractice = d.total) :
    (0 < d.total →
      calculatePercentageExact d.mastered d.total +
        calculatePercentageExact d.learning d.total +
        calculatePercentageExact d.needsPractice d.total = 100) ∧
    (d.total = 0 →
      (getMasteryDistributionDisplayValues d).masteredPercent = 0 ∧
      (getMasteryDistributionDisplayValues d).learningPercent = 0 ∧
      (getMasteryDistributionDisplayValues d).needsPracticePercent = 0 ∧
      (getMasteryDistributionDisplayValues d).percentageSum = 0) := by
  constructor
  · intro hpos
    unfold calculatePercentageExact
    have hne : d.total ≠ 0 := Nat.pos_iff_ne_zero.mp hpos
    have hqne : (d.total : ℚ) ≠ 0 := Nat.cast_ne_zero.mpr hne
    have hq : (d.mastered : ℚ) + (d.learning : ℚ) + (d.needsPractice : ℚ) =
        (d.total : ℚ) := by exact_mod_cast hinv
    simp only [if_neg hne]
    field_simp
    linarith
  · intro h0
    unfold getMasteryDistributionDisplayValues calculatePercentage
    simp [h0, round64]

/-- Witness for C10 (amended): the theorem applied to the concrete
distribution `{mastered := 1, learning := 1, needsPractice := 1,
total := 3}`. -/
theorem getMasteryDistributionDisplayValues_correct_witness :
    calculatePercentageExact 1 3 + calculatePercentageExact 1 3 +
      calculatePercentageExact 1 3 = 100 :=
  (getMasteryDistributionDisplayValues_correct
      { mastered := 1, learning := 1, needsPractice := 1, total := 3 }
      (by decide)).1 (by decide)

/-- C10 counterexample, refuting the claim as stated: at the distribution
`{mastered := 1, learning := 1, needsPractice := 1, total := 3}`, which
satisfies the invariant with `total > 0`, the binary64 computation gives
`percentageSum = 7036874417766399 / 2^46` — the double printed as
`99.99999999999999`, exactly one ulp below `100` — so the three computed
percentages do not sum to exactly `100`. -/
theorem getMasteryDistributionDisplayValues_sum_ne_100 :
    (getMasteryDistributionDisplayValues
        { mastered := 1, learning := 1, needsPractice := 1,
          total := 3 }).percentageSum = 7036874417766399 / 2 ^ 46 ∧
    (getMasteryDistributionDisplayValues
        { mastered := 1, learning := 1, needsPractice := 1,
          total := 3 }).percentageSum ≠ 100 := by
  have hp : calculatePercentage 1 3 = 4691249611844266 / 2 ^ 47 := by
    unfold calculatePercentage
    rw [if_neg (by norm_num)]
    have h1 : ((1 : Nat) : ℚ) / ((3 : Nat) : ℚ) = 1 / 3 := by norm_num
    rw [h1, round64_one_third]
    have h2 : (6004799503160661 / 2 ^ 54 : ℚ) * 100 =
        600479950316066100 / 2 ^ 54 := by norm_num
    rw [h2, round64_step2]
  have hps : (getMasteryDistributionDisplayValues
      { mastered := 1, learning := 1, needsPractice := 1,
        total := 3 }).percentageSum = 7036874417766399 / 2 ^ 46 := by
    show round64 (round64 (calculatePercentage 1 3 + calculatePercentage 1 3) +
      calculatePercentage 1 3) = 7036874417766399 / 2 ^ 46
    rw [hp]
    have e1 : (4691249611844266 / 2 ^ 47 : ℚ) + 4691249611844266 / 2 ^ 47 =
        4691249611844266 / 2 ^ 46 := by norm_num
    rw [e1, round64_step3]
    have e2 : (4691249611844266 / 2 ^ 46 : ℚ) + 4691249611844266 / 2 ^ 47 =
        7036874417766399 / 2 ^ 46 := by norm_num
    rw [e2, round64_step4]
  refine ⟨hps, ?_⟩
  rw [hps]
  norm_num

/-! ## `hooks/useStatsAggregator.ts`: derived read-only queries

`Array.prototype.sort` with comparator `cmp` is embedded as the stable
`List.mergeSort` with `le a b := cmp(a, b) ≤ 0` (modern engines implement a
stable sort, and the spec documents the stable tie policy);
`Array.prototype.filter` and `slice` allocate fresh arrays and are embedded
as `List.filter` and `List.take`. -/

/-- Embedding of `filterCharacterMasteryByType(items, filter)`: `'all'` returns the
items unchanged, otherwise keep the items whose `contentType === filter`. -/
def filterCharacterMasteryByType (items : List CharacterMasteryItem)
    (filter : ContentFilter) : List CharacterMasteryItem :=
  if filter = .all then
    items
  else
    items.filter (fun item => contentTypeMatchesFilter item.contentType filter)

/-- Embedding of `getTopDifficultCharacters(items, count = 5, minAttempts = 5)`: filter
to items with `total >= minAttempts`, sort ascending by accuracy
(`(a, b) => a.accuracy - b.accuracy`), take the first `count`. -/
def getTopDifficultCharacters (items : List CharacterMasteryItem)
    (count : Nat := 5) (minAttempts : Nat := 5) : List CharacterMasteryItem :=
  (((items.filter (fun item => minAttempts ≤ item.total)).mergeSort
    (fun a b => a.accuracy ≤ b.accuracy)).take count)

/-- Embedding of `getTopMasteredCharacters(items, count = 5)`: filter to items with
`masteryLevel === 'mastered'`, sort descending by accuracy
(`(a, b) => b.accuracy - a.accuracy`), take the first `count`. -/
def getTopMasteredCharacters (items : List CharacterMasteryItem)
    (count : Nat := 5) : List CharacterMasteryItem :=
  (((items.filter (fun item => item.masteryLevel = .mastered)).mergeSort
    (fun a b => b.accuracy ≤ a.accuracy)).take count)

lemma accuracy_le_trans (a b c : CharacterMasteryItem) :
    decide (a.accuracy ≤ b.accuracy) = true →
      decide (b.accuracy ≤ c.accuracy) = true →
        decide (a.accuracy ≤ c.accuracy) = true := by
  simp only [decide_eq_true_eq]
  exact le_trans

lemma accuracy_le_total (a b : CharacterMasteryItem) :
    (decide (a.accuracy ≤ b.accuracy) || decide (b.accuracy ≤ a.accuracy)) =
      true := by
  simp only [Bool.or_eq_true, decide_eq_true_eq]
  exact le_total _ _

/-! ## Theorems for claim C7 -/

/-- C7: For every item list and requested count, the top-difficult
query returns at most `count` items, every returned item has at least `5`
total attempts (the minimum-attempts threshold), and the result is sorted
by non-decreasing accuracy. -/
theorem getTopDifficultCharacters_correct
    (items : List CharacterMasteryItem) (count : Nat) :
    (getTopDifficultCharacters items count 5).length ≤ count ∧
    (∀ x ∈ getTopDifficultCharacters items count 5, 5 ≤ x.total) ∧
    (getTopDifficultCharacters items count 5).Pairwise
      (fun a b => a.accuracy ≤ b.accuracy) := by
  unfold getTopDifficultCharacters
  refine ⟨List.length_take_le _ _, ?_, ?_⟩
  · intro x hx
    have hx1 := List.take_subset _ _ hx
    have hx2 := (List.mergeSort_perm _ _).mem_iff.mp hx1
    have := (List.mem_filter.mp hx2).2
    simpa using this
  · have hsorted := @List.sorted_mergeSort CharacterMasteryItem
      (fun a b => decide (a.accuracy ≤ b.accuracy))
      accuracy_le_trans accuracy_le_total
      (items.filter (fun item => 5 ≤ item.total))
    have hpair : ((items.filter (fun item => 5 ≤ item.total)).mergeSort
        (fun a b => a.accuracy ≤ b.accuracy)).Pairwise
          (fun a b => a.accuracy ≤ b.accuracy) := by
      refine (List.Pairwise.imp ?_ hsorted)
      intro a b h
      simpa using h
    exact hpair.sublist (List.take_sublist _ _)

/-- Witness for C7: the bound, threshold, and sortedness clauses applied
to a concrete two-item list. -/
theorem getTopDifficultCharacters_correct_witness :
    (getTopDifficultCharacters
      [{ character := [0x3042], correct := 1, incorrect := 9, total := 10,
         accuracy := 10, masteryLevel := .needsPractice, contentType := .kana },
       { character := [0x65e5], correct := 2, incorrect := 0, total := 2,
         accuracy := 100, masteryLevel := .learning, contentType := .kanji }]
      1 5).length ≤ 1 :=
  (getTopDifficultCharacters_correct _ 1).1

/-! ## Theorems for claim C8 -/

lemma contentTypeMatchesFilter_eq_true {t : ContentType} {f : ContentFilter} :
    contentTypeMatchesFilter t f = true ↔
      (t = .kana ∧ f = .kana) ∨ (t = .kanji ∧ f = .kanji) ∨
        (t = .vocabulary ∧ f = .vocabulary) := by
  cases t <;> cases f <;> simp [contentTypeMatchesFilter]

lemma filter_contentType_length_sum (items : List CharacterMasteryItem) :
    (items.filter
        (fun item => contentTypeMatchesFilter item.contentType .kana)).length +
      (items.filter
        (fun item => contentTypeMatchesFilter item.contentType .kanji)).length +
      (items.filter
        (fun item =>
          contentTypeMatchesFilter item.contentType .vocabulary)).length =
      items.length := by
  induction items with
  | nil => simp
  | cons x xs ih =>
    simp only [contentTypeMatchesFilter] at ih ⊢
    simp only [List.filter_cons]
    cases h : x.contentType <;> simp [h] <;> omega

/-- C8: Filtering with `'all'` returns the list unchanged; filtering
with a content type returns only items of that type; and the sizes of the
three per-type filtered lists sum to the size of the original list. -/
theorem filterCharacterMasteryByType_correct
    (items : List CharacterMasteryItem) :
    filterCharacterMasteryByType items .all = items ∧
    (∀ x ∈ filterCharacterMasteryByType items .kana,
      x.contentType = .kana) ∧
    (∀ x ∈ filterCharacterMasteryByType items .kanji,
      x.contentType = .kanji) ∧
    (∀ x ∈ filterCharacterMasteryByType items .vocabulary,
      x.contentType = .vocabulary) ∧
    (filterCharacterMasteryByType items .kana).length +
      (filterCharacterMasteryByType items .kanji).length +
      (filterCharacterMasteryByType items .vocabulary).length =
      items.length := by
  refine ⟨rfl, ?_, ?_, ?_, ?_⟩
  · intro x hx
    have hmem : x ∈ items ∧
        contentTypeMatchesFilter x.contentType .kana = true := by
      simpa [filterCharacterMasteryByType] using hx
    rcases contentTypeMatchesFilter_eq_true.mp hmem.2 with
      ⟨h, _⟩ | ⟨_, h⟩ | ⟨_, h⟩
    · exact h
    · cases h
    · cases h
  · intro x hx
    have hmem : x ∈ items ∧
        contentTypeMatchesFilter x.contentType .kanji = true := by
      simpa [filterCharacterMasteryByType] using hx
    rcases contentTypeMatchesFilter_eq_true.mp hmem.2 with
      ⟨_, h⟩ | ⟨h, _⟩ | ⟨_, h⟩
    · cases h
    · exact h
    · cases h
  · intro x hx
    have hmem : x ∈ items ∧
        contentTypeMatchesFilter x.contentType .vocabulary = true := by
      simpa [filterCharacterMasteryByType] using hx
    rcases contentTypeMatchesFilter_eq_true.mp hmem.2 with
      ⟨_, h⟩ | ⟨_, h⟩ | ⟨h, _⟩
    · cases h
    · cases h
    · exact h
  · simpa [filterCharacterMasteryByType] using
      filter_contentType_length_sum items

/-- Witness for C8: the per-type clause applied to a concrete singleton
list. -/
theorem filterCharacterMasteryByType_correct_witness :
    ({ character := [0x3042], correct := 3, incorrect := 1, total := 4,
       accuracy := 75, masteryLevel := .learning,
       contentType := .kana } : CharacterMasteryItem).contentType = .kana :=
  (filterCharacterMasteryByType_correct
      [{ character := [0x3042], correct := 3, incorrect := 1, total := 4,
         accuracy := 75, masteryLevel := .learning,
         contentType := .kana }]).2.1 _ (by decide)

/-! ## `hooks/useStatsAggregator.ts`: gauntlet aggregation -/

/-- Per-content-type gauntlet summary returned by the external
`getOverallStats` collaborator (`shared/lib/gauntletStats.ts`, outside this
excerpt); field shape as consumed by `loadGauntletStats` and documented by
the external-interface contract: session counts, correct/wrong counts,
best streak, and a nullable fastest completion time. -/
structure GauntletTypeStats where
  totalSessions : Nat
  completedSessions : Nat
  totalCorrect : Nat
  totalWrong : Nat
  bestStreak : Nat
  fastestTime : Option ℚ
  deriving DecidableEq, Repr

/-- Embedding of `GauntletOverallStats` (`types/stats.ts`): the combined gauntlet
aggregate. -/
structure GauntletOverallStats where
  totalSessions : Nat
  completedSessions : Nat
  completionRate : ℚ
  totalCorrect : Nat
  totalWrong : Nat
  bestStreak : Nat
  fastestTime : Option ℚ
  accuracy : ℚ
  deriving DecidableEq, Repr

/-- Embedding of `fastestTimes.length > 0 ? Math.min(...fastestTimes) : null`:
`Math.min` over a non-empty spread list, `null` for the empty one. -/
def minOfTimes : List ℚ → Option ℚ
  | [] => none
  | t :: ts => some (ts.foldl min t)

/-- The body of `loadGauntletStats` after the three fetches have resolved:
sum the session/correct/wrong counts, `null` when the combined session
count is zero, otherwise max of best streaks, `Math.min` of the non-null
fastest times (`null` if none), completion rate
`(completedSessions / totalSessions) * 100`, and the combined accuracy. -/
def loadGauntletStatsCombine (kanaStats kanjiStats vocabStats :
    GauntletTypeStats) : Option GauntletOverallStats :=
  let totalSessions := kanaStats.totalSessions + kanjiStats.totalSessions +
    vocabStats.totalSessions
  if totalSessions = 0 then
    none
  else
    let completedSessions := kanaStats.completedSessions +
      kanjiStats.completedSessions + vocabStats.completedSessions
    let totalCorrect := kanaStats.totalCorrect + kanjiStats.totalCorrect +
      vocabStats.totalCorrect
    let totalWrong := kanaStats.totalWrong + kanjiStats.totalWrong +
      vocabStats.totalWrong
    let bestStreak := max (max kanaStats.bestStreak kanjiStats.bestStreak)
      vocabStats.bestStreak
    let fastestTimes := [kanaStats.fastestTime, kanjiStats.fastestTime,
      vocabStats.fastestTime].filterMap id
    let fastestTime := minOfTimes fastestTimes
    let completionRate : ℚ :=
      if 0 < totalSessions then
        ((completedSessions : ℚ) / (totalSessions : ℚ)) * 100
      else 0
    let accuracy := calculateAccuracy totalCorrect totalWrong
    some { totalSessions, completedSessions, completionRate, totalCorrect,
           totalWrong, bestStreak, fastestTime, accuracy }

/-- Outcome of one asynchronous `getOverallStats` fetch: a value, or a
thrown error. -/
abbrev GauntletFetch := Except String GauntletTypeStats

/-- Whether a fetch outcome is a thrown error. -/
def fetchThrew : GauntletFetch → Bool
  | .error _ => true
  | .ok _ => false

/-- Embedding of `loadGauntletStats()`: `Promise.all` of the three per-type fetches;
if any fetch rejects, the surrounding `try`/`catch` logs a diagnostic
warning and returns `null`, so the function never raises (embedded as a
total function into `Option`). -/
def loadGauntletStats (kanaFetch kanjiFetch vocabFetch : GauntletFetch) :
    Option GauntletOverallStats :=
  match kanaFetch, kanjiFetch, vocabFetch with
  | .ok kanaStats, .ok kanjiStats, .ok vocabStats =>
      loadGauntletStatsCombine kanaStats kanjiStats vocabStats
  | _, _, _ => none

/-- The consumer-visible state of `useStatsAggregator` touched by
`refreshGauntletStats`: the loaded gauntlet value, the loading flag, and
the error message string (or `null`). -/
structure AggregatorState where
  gauntletStats : Option GauntletOverallStats
  isLoading : Bool
  error : Option String
  deriving DecidableEq, Repr

/-- Embedding of `refreshGauntletStats()`: `setIsLoading(true)`; `setError(null)`;
`try` the load and store its result; the `catch` (which would set an error
message) is unreachable because `loadGauntletStats` catches internally and
never raises; `finally` `setIsLoading(false)`. -/
def refreshGauntletStats (kanaFetch kanjiFetch vocabFetch : GauntletFetch)
    (s : AggregatorState) : AggregatorState :=
  let s1 := { s with isLoading := true, error := none }
  let stats := loadGauntletStats kanaFetch kanjiFetch vocabFetch
  let s2 := { s1 with gauntletStats := stats }
  { s2 with isLoading := false }

/-! ## `hooks/useStatsAggregator.ts`: snapshot composition -/

/-- Embedding of `RawCharacterMastery` (`types/stats.ts`): raw per-character counters
from the stats store. -/
structure RawCharacterMastery where
  correct : Nat
  incorrect : Nat
  deriving DecidableEq, Repr

/-- Embedding of `transformCharacterMastery(rawMastery)`: map each
`Object.entries` pair of the raw character→counts record to a classified
`CharacterMasteryItem` via the three pure helpers. -/
def transformCharacterMastery
    (rawMastery : List (JsString × RawCharacterMastery)) :
    List CharacterMasteryItem :=
  rawMastery.map (fun entry =>
    let character := entry.1
    let data := entry.2
    { character
      correct := data.correct
      incorrect := data.incorrect
      total := data.correct + data.incorrect
      accuracy := calculateAccuracy data.correct data.incorrect
      masteryLevel := classifyCharacter data.correct data.incorrect
      contentType := detectContentType character })

/-- Embedding of `TimedModeStats` (`types/stats.ts`). -/
structure TimedModeStats where
  correct : Nat
  wrong : Nat
  streak : Nat
  bestStreak : Nat
  accuracy : ℚ
  deriving DecidableEq, Repr

/-- Embedding of `AchievementSummary` (`types/stats.ts`). -/
structure AchievementSummary where
  totalPoints : Nat
  level : Nat
  unlockedCount : Nat
  totalAchievements : Nat
  deriving DecidableEq, Repr

/-- Embedding of `AggregatedStats` (`types/stats.ts`): the unified read-only
snapshot. -/
structure AggregatedStats where
  totalSessions : Nat
  totalCorrect : Nat
  totalIncorrect : Nat
  overallAccuracy : ℚ
  bestStreak : Nat
  uniqueCharactersLearned : Nat
  characterMastery : List CharacterMasteryItem
  masteryDistribution : MasteryDistribution
  timedKana : TimedModeStats
  timedKanji : TimedModeStats
  timedVocabulary : TimedModeStats
  gauntlet : Option GauntletOverallStats
  achievements : AchievementSummary
  deriving DecidableEq, Repr

/-- The all-time totals exposed by the session-stats store
(`allTimeStats` of `useStatsStore`). -/
structure AllTimeStats where
  totalSessions : Nat
  totalCorrect : Nat
  totalIncorrect : Nat
  bestStreak : Nat
  characterMastery : List (JsString × RawCharacterMastery)
  deriving DecidableEq, Repr

/-- The read-only values pulled from the external stores by
`useStatsAggregator` (session-stats store, timed-mode counters,
achievement store and the fixed `ACHIEVEMENTS` catalogue, of which only
the exposed fields are consumed). -/
structure StoreInputs where
  allTimeStats : AllTimeStats
  timedKanaCorrect : Nat
  timedKanaWrong : Nat
  timedKanaStreak : Nat
  timedKanaBestStreak : Nat
  timedKanjiCorrect : Nat
  timedKanjiWrong : Nat
  timedKanjiStreak : Nat
  timedKanjiBestStreak : Nat
  timedVocabCorrect : Nat
  timedVocabWrong : Nat
  timedVocabStreak : Nat
  timedVocabBestStreak : Nat
  achievementPoints : Nat
  achievementLevel : Nat
  unlockedAchievements : List JsString
  achievementsCatalogLength : Nat
  deriving DecidableEq, Repr

/-- The `stats` memo of `useStatsAggregator`: compose the store inputs and
the loaded gauntlet value into the snapshot (character mastery transform,
mastery distribution, per-type timed stats with derived accuracy, overall
accuracy, achievement summary). -/
def buildAggregatedStats (inp : StoreInputs)
    (gauntletStats : Option GauntletOverallStats) : AggregatedStats :=
  let characterMastery :=
    transformCharacterMastery inp.allTimeStats.characterMastery
  let masteryDistribution := calculateMasteryDistribution characterMastery
  let timedKana : TimedModeStats :=
    { correct := inp.timedKanaCorrect
      wrong := inp.timedKanaWrong
      streak := inp.timedKanaStreak
      bestStreak := inp.timedKanaBestStreak
      accuracy := calculateAccuracy inp.timedKanaCorrect inp.timedKanaWrong }
  let timedKanji : TimedModeStats :=
    { correct := inp.timedKanjiCorrect
      wrong := inp.timedKanjiWrong
      streak := inp.timedKanjiStreak
      bestStreak := inp.timedKanjiBestStreak
      accuracy := calculateAccuracy inp.timedKanjiCorrect inp.timedKanjiWrong }
  let timedVocabulary : TimedModeStats :=
    { correct := inp.timedVocabCorrect
      wrong := inp.timedVocabWrong
      streak := inp.timedVocabStreak
      bestStreak := inp.timedVocabBestStreak
      accuracy := calculateAccuracy inp.timedVocabCorrect inp.timedVocabWrong }
  let overallAccuracy := calculateAccuracy inp.allTimeStats.totalCorrect
    inp.allTimeStats.totalIncorrect
  { totalSessions := inp.allTimeStats.totalSessions
    totalCorrect := inp.allTimeStats.totalCorrect
    totalIncorrect := inp.allTimeStats.totalIncorrect
    overallAccuracy
    bestStreak := inp.allTimeStats.bestStreak
    uniqueCharactersLearned := characterMastery.length
    characterMastery
    masteryDistribution
    timedKana
    timedKanji
    timedVocabulary
    gauntlet := gauntletStats
    achievements :=
      { totalPoints := inp.achievementPoints
        level := inp.achievementLevel
        unlockedCount := inp.unlockedAchievements.length
        totalAchievements := inp.achievementsCatalogLength } }

/-! ## Theorems for claim C4 -/

/-- Nullable minimum: `null` only when both operands are `null`, otherwise
the minimum of the present values (the specification's description of the
combined fastest time). -/
def optionMin (a b : Option ℚ) : Option ℚ :=
  match a, b with
  | none, b => b
  | a, none => a
  | some x, some y => some (min x y)

lemma minOfTimes_filterMap_eq (a b c : Option ℚ) :
    minOfTimes ([a, b, c].filterMap id) =
      optionMin (optionMin a b) c := by
  rcases a with _ | x <;> rcases b with _ | y <;> rcases c with _ | z <;>
    simp [optionMin, minOfTimes, min_assoc]

/-- Explicit form of the combined gauntlet record when the combined
session count is non-zero. -/
lemma loadGauntletStatsCombine_eq (k j v : GauntletTypeStats)
    (hne : k.totalSessions + j.totalSessions + v.totalSessions ≠ 0) :
    loadGauntletStatsCombine k j v = some
      { totalSessions := k.totalSessions + j.totalSessions + v.totalSessions
        completedSessions := k.completedSessions + j.completedSessions +
          v.completedSessions
        completionRate :=
          (((k.completedSessions + j.completedSessions +
            v.completedSessions : Nat) : ℚ) /
            ((k.totalSessions + j.totalSessions +
              v.totalSessions : Nat) : ℚ)) * 100
        totalCorrect := k.totalCorrect + j.totalCorrect + v.totalCorrect
        totalWrong := k.totalWrong + j.totalWrong + v.totalWrong
        bestStreak := max (max k.bestStreak j.bestStreak) v.bestStreak
        fastestTime := optionMin (optionMin k.fastestTime j.fastestTime)
          v.fastestTime
        accuracy := calculateAccuracy
          (k.totalCorrect + j.totalCorrect + v.totalCorrect)
          (k.totalWrong + j.totalWrong + v.totalWrong) } := by
  have hpos : 0 < k.totalSessions + j.totalSessions + v.totalSessions :=
    Nat.pos_of_ne_zero hne
  unfold loadGauntletStatsCombine
  simp only [if_neg hne, if_pos hpos, minOfTimes_filterMap_eq]

/-- C4: For any three per-type gauntlet results with
`completedSessions ≤ totalSessions`: if the three session counts sum to
`0` the combined result is `null`; otherwise the combined result sums the
session/completed/correct/wrong counts, takes the maximum of the best
streaks and the minimum of the non-null fastest times (`null` iff all
three are `null`), and its completion rate is
`100 * completedSessions / totalSessions`, lying in `[0, 100]`. -/
theorem loadGauntletStatsCombine_correct
    (k j v : GauntletTypeStats)
    (hk : k.completedSessions ≤ k.totalSessions)
    (hj : j.completedSessions ≤ j.totalSessions)
    (hv : v.completedSessions ≤ v.totalSessions) :
    (k.totalSessions + j.totalSessions + v.totalSessions = 0 →
      loadGauntletStatsCombine k j v = none) ∧
    (k.totalSessions + j.totalSessions + v.totalSessions ≠ 0 →
      ∃ r : GauntletOverallStats,
        loadGauntletStatsCombine k j v = some r ∧
        r.totalSessions =
          k.totalSessions + j.totalSessions + v.totalSessions ∧
        r.completedSessions =
          k.completedSessions + j.completedSessions + v.completedSessions ∧
        r.totalCorrect = k.totalCorrect + j.totalCorrect + v.totalCorrect ∧
        r.totalWrong = k.totalWrong + j.totalWrong + v.totalWrong ∧
        r.bestStreak = max (max k.bestStreak j.bestStreak) v.bestStreak ∧
        r.fastestTime = optionMin (optionMin k.fastestTime j.fastestTime)
          v.fastestTime ∧
        r.completionRate =
          100 * (r.completedSessions : ℚ) / (r.totalSessions : ℚ) ∧
        0 ≤ r.completionRate ∧ r.completionRate ≤ 100) := by
  constructor
  · intro h0
    unfold loadGauntletStatsCombine
    simp [h0]
  · intro hne
    rw [loadGauntletStatsCombine_eq k j v hne]
    have hpos : 0 < k.totalSessions + j.totalSessions + v.totalSessions :=
      Nat.pos_of_ne_zero hne
    have hqpos : (0 : ℚ) <
        ((k.totalSessions + j.totalSessions + v.totalSessions : Nat) : ℚ) := by
      exact_mod_cast hpos
    have hcle : k.completedSessions + j.completedSessions +
        v.completedSessions ≤
          k.totalSessions + j.totalSessions + v.totalSessions := by
      omega
    have hqle : ((k.completedSessions + j.completedSessions +
        v.completedSessions : Nat) : ℚ) ≤
          ((k.totalSessions + j.totalSessions + v.totalSessions : Nat) : ℚ) := by
      exact_mod_cast hcle
    refine ⟨_, rfl, rfl, rfl, rfl, rfl, rfl, rfl, ?_, ?_, ?_⟩
    · ring
    · positivity
    · have hdiv : ((k.completedSessions + j.completedSessions +
          v.completedSessions : Nat) : ℚ) /
            ((k.totalSessions + j.totalSessions +
              v.totalSessions : Nat) : ℚ) ≤ 1 :=
        div_le_one_of_le₀ hqle (le_of_lt hqpos)
      nlinarith

/-- Witness for C4: the zero-sessions clause at a concrete all-zero
triple, and the combining clause at a concrete non-zero triple. -/
theorem loadGauntletStatsCombine_correct_witness :
    loadGauntletStatsCombine
      { totalSessions := 0, completedSessions := 0, totalCorrect := 0,
        totalWrong := 0, bestStreak := 0, fastestTime := none }
      { totalSessions := 0, completedSessions := 0, totalCorrect := 0,
        totalWrong := 0, bestStreak := 0, fastestTime := none }
      { totalSessions := 0, completedSessions := 0, totalCorrect := 0,
        totalWrong := 0, bestStreak := 0, fastestTime := none } = none :=
  (loadGauntletStatsCombine_correct _ _ _ (by decide) (by decide)
    (by decide)).1 (by decide)

/-! ## Theorems for claim C5 -/

/-- C5 (amended): If any of the three per-type gauntlet fetches
throws: the gauntlet value is `null`, the loading flag is cleared, no
exception propagates (`refreshGauntletStats` is a total function on
states: `loadGauntletStats` absorbs the rejection internally), and every
non-gauntlet part of the snapshot is produced unchanged — but the error
state remains `null` (the failure is only logged as a console diagnostic,
not surfaced through the error string). -/
theorem refreshGauntletStats_fetch_failure
    (kanaFetch kanjiFetch vocabFetch : GauntletFetch) (s : AggregatorState)
    (inp : StoreInputs)
    (h : fetchThrew kanaFetch = true ∨ fetchThrew kanjiFetch = true ∨
      fetchThrew vocabFetch = true) :
    (refreshGauntletStats kanaFetch kanjiFetch vocabFetch s).gauntletStats =
      none ∧
    (refreshGauntletStats kanaFetch kanjiFetch vocabFetch s).isLoading =
      false ∧
    (refreshGauntletStats kanaFetch kanjiFetch vocabFetch s).error = none ∧
    (∀ g : Option GauntletOverallStats,
      { buildAggregatedStats inp
          ((refreshGauntletStats kanaFetch kanjiFetch vocabFetch
            s).gauntletStats) with gauntlet := none } =
        { buildAggregatedStats inp g with gauntlet := none }) := by
  have hload : loadGauntletStats kanaFetch kanjiFetch vocabFetch = none := by
    rcases kanaFetch with e | kv <;> rcases kanjiFetch with e' | jv <;>
      rcases vocabFetch with e'' | vv <;>
      simp [loadGauntletStats, fetchThrew] at h ⊢
  refine ⟨?_, rfl, rfl, ?_⟩
  · simp [refreshGauntletStats, hload]
  · intro g
    rfl

/-- A concrete all-zero store-input record, used to instantiate the
snapshot-composition clauses at a specific input. -/
def zeroStoreInputs : StoreInputs where
  allTimeStats :=
    { totalSessions := 0, totalCorrect := 0, totalIncorrect := 0,
      bestStreak := 0, characterMastery := [] }
  timedKanaCorrect := 0
  timedKanaWrong := 0
  timedKanaStreak := 0
  timedKanaBestStreak := 0
  timedKanjiCorrect := 0
  timedKanjiWrong := 0
  timedKanjiStreak := 0
  timedKanjiBestStreak := 0
  timedVocabCorrect := 0
  timedVocabWrong := 0
  timedVocabStreak := 0
  timedVocabBestStreak := 0
  achievementPoints := 0
  achievementLevel := 1
  unlockedAchievements := []
  achievementsCatalogLength := 10

/-- Witness for C5 (amended): a concrete rejected kana fetch against
concrete ok fetches and a concrete starting state. -/
theorem refreshGauntletStats_fetch_failure_witness :
    (refreshGauntletStats (.error "storage unavailable")
      (.ok { totalSessions := 1, completedSessions := 1, totalCorrect := 4,
             totalWrong := 0, bestStreak := 4, fastestTime := some 45000 })
      (.ok { totalSessions := 0, completedSessions := 0, totalCorrect := 0,
             totalWrong := 0, bestStreak := 0, fastestTime := none })
      { gauntletStats := none, isLoading := true,
        error := none }).gauntletStats = none :=
  (refreshGauntletStats_fetch_failure _ _ _ _ zeroStoreInputs
    (Or.inl (by decide))).1

/-- C5 counterexample, refuting the claim as stated:  With a concretely
rejected kana fetch, the resulting consumer-visible error string is
`null`, not a non-null error message: `loadGauntletStats` swallows the
rejection (returning `null` after a console warning), so the `catch`
branch of `refreshGauntletStats` that would set the error string never
runs. -/
theorem refreshGauntletStats_error_stays_null :
    (refreshGauntletStats (.error "storage unavailable")
      (.ok { totalSessions := 1, completedSessions := 1, totalCorrect := 4,
             totalWrong := 0, bestStreak := 4, fastestTime := some 45000 })
      (.ok { totalSessions := 0, completedSessions := 0, totalCorrect := 0,
             totalWrong := 0, bestStreak := 0, fastestTime := none })
      { gauntletStats := none, isLoading := true, error := none }).error =
      none ∧
    ¬ (refreshGauntletStats (.error "storage unavailable")
      (.ok { totalSessions := 1, completedSessions := 1, totalCorrect := 4,
             totalWrong := 0, bestStreak := 4, fastestTime := some 45000 })
      (.ok { totalSessions := 0, completedSessions := 0, totalCorrect := 0,
             totalWrong := 0, bestStreak := 0, fastestTime := none })
      { gauntletStats := none, isLoading := true, error := none }).error ≠
      none := by
  constructor
  · rfl
  · intro hne
    exact hne rfl

/-! ## Claim C9: the derived queries do not mutate their input

JavaScript arrays are heap references: `Array.prototype.filter`, `slice`
and spread (`[...]`) allocate fresh arrays, while `Array.prototype.sort`
sorts its receiver array in place.  To make the no-mutation (frame)
property statable, the three queries are re-run here as programs over an
explicit heap of arrays, with each array operation acting on references
exactly as in JavaScript; the in-place `sort` only ever hits the fresh
array produced by the preceding `filter`, never the caller's array. -/

/-- A heap of `CharacterMasteryItem` arrays; a reference is an index into
the allocation list. -/
structure ArrayHeap where
  arrays : List (List CharacterMasteryItem)
  deriving Repr

/-- Dereference (out-of-range reads give the empty array; the programs
below only read references they were given or allocated). -/
def ArrayHeap.get (h : ArrayHeap) (r : Nat) : List CharacterMasteryItem :=
  (h.arrays[r]?).getD []

/-- Allocate a fresh array, returning the updated heap and the fresh
reference. -/
def ArrayHeap.alloc (h : ArrayHeap) (l : List CharacterMasteryItem) :
    ArrayHeap × Nat :=
  ({ arrays := h.arrays ++ [l] }, h.arrays.length)

/-- Overwrite the array at an existing reference (in-place mutation). -/
def ArrayHeap.store (h : ArrayHeap) (r : Nat)
    (l : List CharacterMasteryItem) : ArrayHeap :=
  { arrays := h.arrays.set r l }

/-- Embedding of `Array.prototype.filter(p)`: reads the receiver and allocates a fresh
array for the result. -/
def jsFilter (h : ArrayHeap) (r : Nat) (p : CharacterMasteryItem → Bool) :
    ArrayHeap × Nat :=
  h.alloc ((h.get r).filter p)

/-- Embedding of `Array.prototype.sort(cmp)`: sorts the receiver in place (stable, with
`le a b ↔ cmp(a,b) ≤ 0`) and returns the same reference. -/
def jsSortBy (h : ArrayHeap) (r : Nat)
    (le : CharacterMasteryItem → CharacterMasteryItem → Bool) :
    ArrayHeap × Nat :=
  (h.store r ((h.get r).mergeSort le), r)

/-- Embedding of `Array.prototype.slice(0, count)`: allocates a fresh array holding the
prefix. -/
def jsSliceTake (h : ArrayHeap) (r : Nat) (count : Nat) : ArrayHeap × Nat :=
  h.alloc ((h.get r).take count)

/-- Embedding of `getTopDifficultCharacters` as the heap program
`items.filter(item => item.total >= minAttempts)
      .sort((a, b) => a.accuracy - b.accuracy).slice(0, count)`. -/
def getTopDifficultCharactersHeap (h : ArrayHeap) (items : Nat)
    (count minAttempts : Nat) : ArrayHeap × Nat :=
  let step1 := jsFilter h items (fun item => minAttempts ≤ item.total)
  let step2 := jsSortBy step1.1 step1.2 (fun a b => a.accuracy ≤ b.accuracy)
  jsSliceTake step2.1 step2.2 count

/-- Embedding of `getTopMasteredCharacters` as the heap program
`items.filter(item => item.masteryLevel === 'mastered')
      .sort((a, b) => b.accuracy - a.accuracy).slice(0, count)`. -/
def getTopMasteredCharactersHeap (h : ArrayHeap) (items : Nat)
    (count : Nat) : ArrayHeap × Nat :=
  let step1 := jsFilter h items (fun item => item.masteryLevel = .mastered)
  let step2 := jsSortBy step1.1 step1.2 (fun a b => b.accuracy ≤ a.accuracy)
  jsSliceTake step2.1 step2.2 count

/-- Embedding of `filterCharacterMasteryByType` as the heap program: `'all'` returns
the caller's reference without touching the heap; otherwise `filter`
allocates a fresh array. -/
def filterCharacterMasteryByTypeHeap (h : ArrayHeap) (items : Nat)
    (filter : ContentFilter) : ArrayHeap × Nat :=
  if filter = .all then
    (h, items)
  else
    jsFilter h items
      (fun item => contentTypeMatchesFilter item.contentType filter)

lemma ArrayHeap.get_alloc_lt (h : ArrayHeap) (l : List CharacterMasteryItem)
    (r : Nat) (hr : r < h.arrays.length) :
    (h.alloc l).1.get r = h.get r := by
  unfold ArrayHeap.alloc ArrayHeap.get
  simp only
  rw [List.getElem?_append_left hr]

lemma ArrayHeap.get_alloc_fresh (h : ArrayHeap)
    (l : List CharacterMasteryItem) :
    (h.alloc l).1.get (h.alloc l).2 = l := by
  unfold ArrayHeap.alloc ArrayHeap.get
  simp only
  rw [List.getElem?_concat_length]
  rfl

lemma ArrayHeap.get_store_ne (h : ArrayHeap) (rs r : Nat)
    (l : List CharacterMasteryItem) (hne : rs ≠ r) :
    (h.store rs l).get r = h.get r := by
  unfold ArrayHeap.store ArrayHeap.get
  simp only
  rw [List.getElem?_set_ne hne]

lemma ArrayHeap.get_store_self (h : ArrayHeap) (rs : Nat)
    (l : List CharacterMasteryItem) (hlt : rs < h.arrays.length) :
    (h.store rs l).get rs = l := by
  unfold ArrayHeap.store ArrayHeap.get
  simp only
  rw [List.getElem?_set_eq hlt]
  rfl

/-! ## Theorems for claim C9 -/

/-- C9: The derived read-only queries never mutate their input: after
running `getTopDifficultCharacters`, `getTopMasteredCharacters`, or
`filterCharacterMasteryByType` as heap programs on a valid input
reference, every pre-existing array in the heap — in particular the input
list — still holds exactly its previous elements in their previous order;
and each program's result array holds exactly the corresponding pure
function of the input list. -/
theorem queries_do_not_mutate_input (h : ArrayHeap) (items : Nat)
    (count minAttempts : Nat) (filter : ContentFilter)
    (hv : items < h.arrays.length) :
    (∀ r < h.arrays.length,
      (getTopDifficultCharactersHeap h items count minAttempts).1.get r =
        h.get r) ∧
    (getTopDifficultCharactersHeap h items count minAttempts).1.get
        (getTopDifficultCharactersHeap h items count minAttempts).2 =
      getTopDifficultCharacters (h.get items) count minAttempts ∧
    (∀ r < h.arrays.length,
      (getTopMasteredCharactersHeap h items count).1.get r = h.get r) ∧
    (getTopMasteredCharactersHeap h items count).1.get
        (getTopMasteredCharactersHeap h items count).2 =
      getTopMasteredCharacters (h.get items) count ∧
    (∀ r < h.arrays.length,
      (filterCharacterMasteryByTypeHeap h items filter).1.get r = h.get r) ∧
    (filterCharacterMasteryByTypeHeap h items filter).1.get
        (filterCharacterMasteryByTypeHeap h items filter).2 =
      filterCharacterMasteryByType (h.get items) filter := by
  have halloc1 : ∀ (l : List CharacterMasteryItem) (r : Nat),
      r < h.arrays.length → (h.alloc l).1.get r = h.get r :=
    fun l r hr => ArrayHeap.get_alloc_lt h l r hr
  have hlen1 : ∀ l : List CharacterMasteryItem,
      (h.alloc l).1.arrays.length = h.arrays.length + 1 := by
    intro l
    unfold ArrayHeap.alloc
    simp
  constructor
  · intro r hr
    unfold getTopDifficultCharactersHeap jsFilter jsSortBy jsSliceTake
    simp only
    rw [ArrayHeap.get_alloc_lt _ _ r ?_, ArrayHeap.get_store_ne _ _ _ _ ?_,
      ArrayHeap.get_alloc_lt _ _ r hr]
    · exact Nat.ne_of_gt (by simpa using hr)
    · rw [ArrayHeap.store]
      simp [hlen1]
      omega
  constructor
  · unfold getTopDifficultCharactersHeap jsFilter jsSortBy jsSliceTake
    simp only
    rw [ArrayHeap.get_alloc_fresh]
    rw [ArrayHeap.get_store_self _ _ _ ?_, ArrayHeap.get_alloc_fresh]
    · rfl
    · simp [hlen1, ArrayHeap.alloc]
  constructor
  · intro r hr
    unfold getTopMasteredCharactersHeap jsFilter jsSortBy jsSliceTake
    simp only
    rw [ArrayHeap.get_alloc_lt _ _ r ?_, ArrayHeap.get_store_ne _ _ _ _ ?_,
      ArrayHeap.get_alloc_lt _ _ r hr]
    · exact Nat.ne_of_gt (by simpa using hr)
    · rw [ArrayHeap.store]
      simp [hlen1]
      omega
  constructor
  · unfold getTopMasteredCharactersHeap jsFilter jsSortBy jsSliceTake
    simp only
    rw [ArrayHeap.get_alloc_fresh]
    rw [ArrayHeap.get_store_self _ _ _ ?_, ArrayHeap.get_alloc_fresh]
    · rfl
    · simp [hlen1, ArrayHeap.alloc]
  constructor
  · intro r hr
    unfold filterCharacterMasteryByTypeHeap
    by_cases hf : filter = .all
    · simp [hf]
    · simp only [if_neg hf]
      unfold jsFilter
      exact ArrayHeap.get_alloc_lt _ _ r hr
  · unfold filterCharacterMasteryByTypeHeap filterCharacterMasteryByType
    by_cases hf : filter = .all
    · simp [hf]
    · simp only [if_neg hf]
      unfold jsFilter
      rw [ArrayHeap.get_alloc_fresh]

/-- A concrete one-array heap holding a single classified character, used
to instantiate the frame property at a specific input. -/
def sampleHeap : ArrayHeap where
  arrays :=
    [[{ character := [0x3042], correct := 1, incorrect := 9, total := 10,
        accuracy := 10, masteryLevel := .needsPractice,
        contentType := .kana }]]

/-- Witness for C9: the concrete one-array heap is untouched by the
top-difficult query. -/
theorem queries_do_not_mutate_input_witness :
    (getTopDifficultCharactersHeap sampleHeap 0 5 5).1.get 0 =
      sampleHeap.get 0 :=
  (queries_do_not_mutate_input sampleHeap 0 5 5 .all
    (by simp [sampleHeap])).1 0 (by simp [sampleHeap])

end KanaDojo
